import Mathlib

/-!
Verification of the JIRA evidence-gathering helper.

The Go sources are embedded shallowly: pure functions become Lean
functions, external effects (the git binary, the tracker HTTP client,
the environment, the filesystem) become explicit oracle parameters, and
Go's randomized map-iteration order is modelled by quantifying over all
enumerations (permutations) of the key set.
-/

namespace JiraHelper

/-! ## Compiled pattern model (Go `regexp.Regexp`)

A compiled regular expression is used by the program through exactly two
methods: `MatchString` (unanchored containment test) and
`FindAllString(s, -1)` (all leftmost non-overlapping matches).  We model
a compiled pattern as that pair of functions. -/

structure Pattern where
  matchStr : String → Bool
  findAll : String → List String

/-! ## The built-in default pattern `[A-Z]+-[0-9]+`

`DefaultJIRAIDRegex = "[A-Z]+-[0-9]+"` (config.go).  Its Go semantics is
implemented concretely: `MatchString` holds iff some substring is an
uppercase run, a dash and a digit run, which is the case iff some
consecutive character triple is (uppercase, '-', digit);
`FindAllString` returns the leftmost non-overlapping matches with greedy
runs, exactly as Go's regexp engine does for this pattern. -/

def isUpperAZ (c : Char) : Bool := 'A' ≤ c && c ≤ 'Z'

def isDigit09 (c : Char) : Bool := '0' ≤ c && c ≤ '9'

def hasJiraTriple : List Char → Bool
  | a :: b :: c :: rest => (isUpperAZ a && b == '-' && isDigit09 c) || hasJiraTriple (b :: c :: rest)
  | _ => false

def matchStringJira (s : String) : Bool := hasJiraTriple s.data

/-- Leftmost non-overlapping matches of `[A-Z]+-[0-9]+` over a character
list.  `fuel` only bounds the recursion; the top-level call passes the
input length, which suffices because every branch consumes at least one
character. -/
def findAllJiraAux : Nat → List Char → List (List Char)
  | 0, _ => []
  | _, [] => []
  | fuel + 1, c :: cs =>
    if isUpperAZ c then
      -- greedy uppercase run starting at `c`
      let us := cs.takeWhile isUpperAZ
      match cs.dropWhile isUpperAZ with
      | '-' :: d :: r2 =>
        if isDigit09 d then
          -- greedy digit run after the dash; emit the match and resume after it
          (c :: us ++ '-' :: d :: r2.takeWhile isDigit09) ::
            findAllJiraAux fuel (r2.dropWhile isDigit09)
        else
          -- no digit after the dash: no match can start inside the run or at the dash
          findAllJiraAux fuel (d :: r2)
      | _ :: r1 => findAllJiraAux fuel r1
      | [] => []
    else
      findAllJiraAux fuel cs

def findAllJira (s : String) : List String :=
  (findAllJiraAux s.data.length s.data).map List.asString

def defaultJIRAPattern : Pattern := ⟨matchStringJira, findAllJira⟩

/-! A second concrete pattern, `"XY-[0-9]+"` (a user-supplied `-r`
override in the scenarios below): the literal `XY-` followed by a
greedy digit run, with Go's unanchored matching and leftmost
non-overlapping `FindAllString`. -/

def hasXYMatch : List Char → Bool
  | 'X' :: 'Y' :: '-' :: d :: r => isDigit09 d || hasXYMatch ('Y' :: '-' :: d :: r)
  | _ :: rest => hasXYMatch rest
  | [] => false

def findAllXYAux : Nat → List Char → List (List Char)
  | 0, _ => []
  | _, [] => []
  | fuel + 1, c :: cs =>
    match c, cs with
    | 'X', 'Y' :: '-' :: d :: r =>
      if isDigit09 d then
        ('X' :: 'Y' :: '-' :: d :: r.takeWhile isDigit09) ::
          findAllXYAux fuel (r.dropWhile isDigit09)
      else findAllXYAux fuel cs
    | _, _ => findAllXYAux fuel cs

def xyPattern : Pattern :=
  ⟨fun s => hasXYMatch s.data, fun s => (findAllXYAux s.data.length s.data).map List.asString⟩

example : xyPattern.matchStr "EV-1" = false := by decide
example : xyPattern.findAll "XY-2 and XY-35" = ["XY-2", "XY-35"] := by decide

example : matchStringJira "EV-123" = true := by decide
example : matchStringJira "xxEV-123yy" = true := by decide
example : matchStringJira "abc123" = false := by decide
example : matchStringJira "Ev-789" = false := by decide
example : findAllJira "EV-123, EV-456: Fix bugs related to EV-789" = ["EV-123", "EV-456", "EV-789"] := by decide
example : findAllJira "EV-1234: Test" = ["EV-1234"] := by decide
example : findAllJira "AB-C-1" = ["C-1"] := by decide

/-! ## Identifier extraction (config.go, git part)

`extractFirstJIRAID(text, pattern)` returns the first match (used by
`GetBranchInfo` with the default pattern to produce the seed
identifier).

`extractUniqueJIRAIDs(commitMessages, currentJiraID, regex)` inserts the
seed into a Go map when it is non-empty and matches the pattern, then
inserts every match of every line, and finally enumerates the map,
skipping the empty key.  Go map enumeration order is unspecified (and
deliberately randomized), so the function's possible outputs are all
permutations of the key set; `extractUniqueCanonical` lists the keys in
insertion (first-seen) order and `IsExtractResult` holds of every list
the Go function can return. -/

def extractFirstJIRAID (text : String) (p : Pattern) : String :=
  match p.findAll text with
  | m :: _ => m
  | [] => ""

/-- Go `strings.Split(s, "\n")` (the separator is the single newline
character): the list of newline-separated fields, keeping empty fields;
the empty string yields `[""]`. -/
def splitLinesAux : List Char → List (List Char)
  | [] => [[]]
  | c :: cs =>
    if c = '\n' then [] :: splitLinesAux cs
    else
      match splitLinesAux cs with
      | l :: ls => (c :: l) :: ls
      | [] => [[c]]

def splitLines (s : String) : List String :=
  (splitLinesAux s.data).map List.asString

example : splitLines "" = [""] := by decide
example : splitLines "a\nb\n" = ["a", "b", ""] := by decide

/-- Insertion into the set of map keys: a repeated key leaves the key
set (and hence the first-seen order) unchanged. -/
def insertKey (l : List String) (x : String) : List String :=
  if x ∈ l then l else l ++ [x]

/-- The keys of the map built by `extractUniqueJIRAIDs`, in insertion
order: the seed first (when non-empty and matching), then each line's
matches. -/
def extractKeys (commitMessages currentJiraID : String) (p : Pattern) : List String :=
  let init : List String :=
    if currentJiraID ≠ "" ∧ p.matchStr currentJiraID = true then [currentJiraID] else []
  (splitLines commitMessages).foldl
    (fun acc line => (p.findAll line).foldl insertKey acc) init

/-- The enumeration of the key map in first-seen order, with the empty
key skipped (the Go loop body guards `jiraID != ""`). -/
def extractUniqueCanonical (commitMessages currentJiraID : String) (p : Pattern) : List String :=
  (extractKeys commitMessages currentJiraID p).filter (· ≠ "")

/-- `out` is a possible return value of Go's `extractUniqueJIRAIDs`:
some map-enumeration order yields it, i.e. it is a permutation of the
canonical first-seen enumeration. -/
def IsExtractResult (commitMessages currentJiraID : String) (p : Pattern) (out : List String) : Prop :=
  out.Perm (extractUniqueCanonical commitMessages currentJiraID p)

example : extractUniqueCanonical "EV-123: Fix bug\nEV-456: Add feature\nEV-123: Update docs"
    "EV-789" defaultJIRAPattern = ["EV-789", "EV-123", "EV-456"] := by decide
example : extractUniqueCanonical "EV-123: Fix bug\nEV-456: Add feature"
    "EV-123" defaultJIRAPattern = ["EV-123", "EV-456"] := by decide
example : extractUniqueCanonical "EV-123: Fix bug" "invalid-id" defaultJIRAPattern = ["EV-123"] := by decide
example : extractUniqueCanonical "General cleanup\nRefactoring\nUpdate docs" "" defaultJIRAPattern = [] := by decide
example : extractUniqueCanonical "EV-100: Start\nEV-100: Continue\nEV-100: Finish" "EV-100" defaultJIRAPattern = ["EV-100"] := by decide
example : extractFirstJIRAID "EV-42: fix EV-7" defaultJIRAPattern = "EV-42" := by decide

/-! ## Data model (jira_models.go)

Go slices distinguish a nil slice from a non-nil empty one (they
marshal to JSON `null` and `[]` respectively), so slice-typed fields
are modelled as `Option (List _)` with `none` for the nil slice.
`Assignee *string` is `Option String`: absent is distinct from the
empty string. -/

def JiraTimeFormat : String := "2006-01-02T15:04:05.000-0700"

def ErrorStatus : String := "Error"

def ErrorType : String := "Error"

def DefaultJIRAIDRegex : String := "[A-Z]+-[0-9]+"

def DefaultOutputFile : String := "transformed_jira_data.json"

structure Transition where
  fromStatus : String
  toStatus : String
  author : String
  authorEmail : String
  transitionTime : String
deriving DecidableEq

structure JiraTransitionResult where
  key : String
  link : String
  status : String
  description : String
  type : String
  project : String
  created : String
  updated : String
  assignee : Option String
  reporter : String
  priority : String
  transitions : Option (List Transition)
deriving DecidableEq

structure TransitionCheckResponse where
  tasks : Option (List JiraTransitionResult)
deriving DecidableEq

/-! ## Tracker objects (the go-jira client's issue model, as used here) -/

structure JiraStatus where
  name : String

structure JiraUser where
  displayName : String
  emailAddress : String

structure JiraIssueType where
  name : String

structure JiraProject where
  key : String

structure JiraPriority where
  name : String

structure ChangelogItem where
  field : String
  fromString : String
  toString : String

structure ChangelogHistory where
  author : JiraUser
  created : String
  items : List ChangelogItem

structure Changelog where
  histories : List ChangelogHistory

/-- The issue fields used by `createSuccessResult`.  `description`
holds the already-flattened description text: the tracker delivers a
rich JSON document that `getDescription` flattens to plain text, and no
claim concerns that flattening, so the field carries its result.
`created`/`updated` are strings in the go-jira model, so only the
string branch of `getTimeAsString`'s type switch is live. -/
structure IssueFields where
  status : Option JiraStatus
  description : String
  type : JiraIssueType
  project : JiraProject
  created : String
  updated : String
  assignee : Option JiraUser
  reporter : Option JiraUser
  priority : Option JiraPriority

structure Issue where
  key : String
  fields : Option IssueFields
  changelog : Option Changelog

/-! ## Field extractors (jira_utils.go) -/

def getStatusName : Option JiraStatus → String
  | none => ""
  | some s => s.name

def getIssueTypeName (t : JiraIssueType) : String := t.name

def getProjectKey (p : JiraProject) : String := p.key

def getReporterName : Option JiraUser → String
  | none => ""
  | some u => u.displayName

def getPriorityName : Option JiraPriority → String
  | none => ""
  | some p => p.name

def getAssignee : Option JiraUser → Option String
  | none => none
  | some u => some u.displayName

def getTimeAsString (v : String) : String := v

/-! ## Tracker client (jira_client.go)

The single network call `Issue.Get(ctx, id, expand changelog)` is an
oracle `getIssue : String → Option Issue × Option String` returning the
(possibly nil) issue and the (possibly nil) error message. -/

structure JiraClient where
  getIssue : String → Option Issue × Option String
  baseURL : String

def createErrorResult (jiraID : String) (err : Option String) : JiraTransitionResult :=
  { key := jiraID
    link := ""
    status := ErrorStatus
    description :=
      match err with
      | some e => "Error: " ++ e
      | none => "Error: Could not retrieve issue"
    type := ErrorType
    project := ""
    created := ""
    updated := ""
    assignee := none
    reporter := ""
    priority := ""
    transitions := some [] }

def extractTransitions (issue : Issue) : Option (List Transition) :=
  match issue.changelog with
  | none => none
  | some cl =>
    -- `var transitions []Transition` starts nil and stays nil unless appended to
    let ts := cl.histories.foldl
      (fun acc h =>
        h.items.foldl
          (fun acc2 item =>
            if item.field = "status" then
              acc2 ++ [{ fromStatus := item.fromString
                         toStatus := item.toString
                         author := h.author.displayName
                         authorEmail := h.author.emailAddress
                         transitionTime := h.created }]
            else acc2)
          acc)
      []
    if ts.isEmpty then none else some ts

/-- `fields` is `issue.Fields`, which the caller has checked non-nil. -/
def createSuccessResult (jc : JiraClient) (issue : Issue) (fields : IssueFields) : JiraTransitionResult :=
  { key := issue.key
    link := if jc.baseURL ≠ "" then jc.baseURL ++ "/browse/" ++ issue.key else ""
    status := getStatusName fields.status
    description := fields.description
    type := getIssueTypeName fields.type
    project := getProjectKey fields.project
    created := getTimeAsString fields.created
    updated := getTimeAsString fields.updated
    assignee := getAssignee fields.assignee
    reporter := getReporterName fields.reporter
    priority := getPriorityName fields.priority
    transitions := extractTransitions issue }

def fetchSingleJiraDetail (jc : JiraClient) (jiraID : String) : JiraTransitionResult :=
  match jc.getIssue jiraID with
  | (_, some e) => createErrorResult jiraID (some e)
  | (none, none) => createErrorResult jiraID none
  | (some issue, none) =>
    match issue.fields with
    | none => createErrorResult jiraID none
    | some fields => createSuccessResult jc issue fields

def FetchJiraDetails (jc : JiraClient) (jiraIDs : List String) : TransitionCheckResponse :=
  -- `make([]JiraTransitionResult, 0, len(jiraIDs))` is a non-nil slice
  { tasks := some (jiraIDs.map (fetchSingleJiraDetail jc)) }

/-- The fetch for an identifier failed: `err != nil`, or the issue is
nil, or the issue's fields are nil. -/
def FetchFailed (jc : JiraClient) (jiraID : String) : Prop :=
  (jc.getIssue jiraID).2.isSome = true ∨ (jc.getIssue jiraID).1 = none ∨
    (∃ issue, (jc.getIssue jiraID).1 = some issue ∧ issue.fields = none)

/-! ## The structured JSON form (saveJiraResults / GenerateMarkdownFromJSON)

`saveJiraResults` marshals the response with `encoding/json` and writes
it; `GenerateMarkdownFromJSON` reads a file and unmarshals it back.
The JSON document is modelled as a value tree (`MarshalIndent`'s
whitespace and string escaping affect only the byte rendering of the
same tree).  The serialized response contains only objects, arrays,
strings and nulls, so the tree type has exactly those constructors;
object member order is preserved. -/

inductive JValue where
  | null : JValue
  | str : String → JValue
  | arr : List JValue → JValue
  | obj : List (String × JValue) → JValue

/-- Marshalling per the Go struct tags of `Transition`. -/
def marshalTransition (t : Transition) : JValue :=
  .obj [("from_status", .str t.fromStatus),
        ("to_status", .str t.toStatus),
        ("author", .str t.author),
        ("author_user_name", .str t.authorEmail),
        ("transition_time", .str t.transitionTime)]

def marshalOptString : Option String → JValue
  | none => .null
  | some s => .str s

/-- A nil slice marshals to `null`, a non-nil one to an array. -/
def marshalTransitionList : Option (List Transition) → JValue
  | none => .null
  | some l => .arr (l.map marshalTransition)

/-- Marshalling per the Go struct tags of `JiraTransitionResult`; the
`link` field carries `omitempty`, so an empty link is omitted. -/
def marshalResult (r : JiraTransitionResult) : JValue :=
  .obj (("key", .str r.key) ::
    ((if r.link = "" then [] else [("link", JValue.str r.link)]) ++
     [("status", .str r.status),
      ("description", .str r.description),
      ("type", .str r.type),
      ("project", .str r.project),
      ("created", .str r.created),
      ("updated", .str r.updated),
      ("assignee", marshalOptString r.assignee),
      ("reporter", .str r.reporter),
      ("priority", .str r.priority),
      ("transitions", marshalTransitionList r.transitions)]))

def marshalResponse (r : TransitionCheckResponse) : JValue :=
  .obj [("tasks",
    match r.tasks with
    | none => .null
    | some l => .arr (l.map marshalResult))]

/-! Unmarshalling, per `encoding/json` semantics: a missing member
leaves the field's zero value; `null` into a string leaves `""`, into a
pointer leaves nil, into a slice leaves nil, into a struct is a no-op
(zero value here); a type mismatch is an error (`none`).  Go's decoder
lets a later duplicate key overwrite an earlier one, so member lookup
takes the last occurrence; the decoder's case-insensitive fallback
never fires on the serialized form and is not modelled. -/

def jLookup (fields : List (String × JValue)) (k : String) : Option JValue :=
  ((fields.filter (fun kv => kv.1 = k)).getLast?).map Prod.snd

def jMember (fields : List (String × JValue)) (k : String) (dec : JValue → Option α)
    (zero : α) : Option α :=
  match jLookup fields k with
  | none => some zero
  | some v => dec v

def decString : JValue → Option String
  | .null => some ""
  | .str s => some s
  | _ => none

def decOptString : JValue → Option (Option String)
  | .null => some none
  | .str s => some (some s)
  | _ => none

def zeroTransition : Transition :=
  { fromStatus := "", toStatus := "", author := "", authorEmail := "", transitionTime := "" }

def decTransition : JValue → Option Transition
  | .null => some zeroTransition
  | .obj fs => do
    let f ← jMember fs "from_status" decString ""
    let t ← jMember fs "to_status" decString ""
    let a ← jMember fs "author" decString ""
    let e ← jMember fs "author_user_name" decString ""
    let tt ← jMember fs "transition_time" decString ""
    some { fromStatus := f, toStatus := t, author := a, authorEmail := e, transitionTime := tt }
  | _ => none

/-- Element-wise decoding of a JSON array (Go errors if any element
errors). -/
def decodeArr (dec : JValue → Option α) : List JValue → Option (List α)
  | [] => some []
  | v :: vs =>
    match dec v, decodeArr dec vs with
    | some a, some as => some (a :: as)
    | _, _ => none

def decTransitionList : JValue → Option (Option (List Transition))
  | .null => some none
  | .arr vs => (decodeArr decTransition vs).map some
  | _ => none

def zeroResult : JiraTransitionResult :=
  { key := "", link := "", status := "", description := "", type := "", project := ""
    created := "", updated := "", assignee := none, reporter := "", priority := ""
    transitions := none }

def decResult : JValue → Option JiraTransitionResult
  | .null => some zeroResult
  | .obj fs => do
    let k ← jMember fs "key" decString ""
    let l ← jMember fs "link" decString ""
    let s ← jMember fs "status" decString ""
    let d ← jMember fs "description" decString ""
    let ty ← jMember fs "type" decString ""
    let pj ← jMember fs "project" decString ""
    let c ← jMember fs "created" decString ""
    let u ← jMember fs "updated" decString ""
    let a ← jMember fs "assignee" decOptString none
    let re ← jMember fs "reporter" decString ""
    let pr ← jMember fs "priority" decString ""
    let tr ← jMember fs "transitions" decTransitionList none
    some { key := k, link := l, status := s, description := d, type := ty, project := pj
           created := c, updated := u, assignee := a, reporter := re, priority := pr
           transitions := tr }
  | _ => none

def decResultList : JValue → Option (Option (List JiraTransitionResult))
  | .null => some none
  | .arr vs => (decodeArr decResult vs).map some
  | _ => none

def unmarshalResponse : JValue → Option TransitionCheckResponse
  | .null => some { tasks := none }
  | .obj fs => do
    let ts ← jMember fs "tasks" decResultList none
    some { tasks := ts }
  | _ => none

/-! ## Date formatting (formatDate, part of the report generator)

`formatDate` parses with Go's `time.Parse` under the fixed layout
`"2006-01-02T15:04:05.000-0700"` and re-renders with layout
`"2006-01-02 15:04:05"`.  The parser below follows Go's `Parse` for
exactly this layout: a 4-digit year; fixed 2-digit month, day, minute
and second; a 1-or-2-digit hour (`"15"` parses leniently); `'.'` or
`','` before the 3-character fraction, whose text must be accepted by
Go's signed `atoi` with a non-negative value (three digits, or `'+'`
and two digits); a numeric zone of a sign and 4 digits; no text may
remain.  Go validates month 1–12, day against the month's length
(leap-year aware), hour ≤ 23, minute and second ≤ 59.  Because the
layout carries a zone offset, the parsed wall-clock fields are
re-rendered unchanged by `Format`. -/

structure ParsedTime where
  year : Nat
  month : Nat
  day : Nat
  hour : Nat
  minute : Nat
  second : Nat
deriving DecidableEq

def isLeapYear (y : Nat) : Bool := y % 4 == 0 && (y % 100 != 0 || y % 400 == 0)

def daysIn (month year : Nat) : Nat :=
  if month = 2 then (if isLeapYear year then 29 else 28)
  else if month = 4 ∨ month = 6 ∨ month = 9 ∨ month = 11 then 30
  else 31

def digitVal (c : Char) : Nat := c.toNat - '0'.toNat

/-- Go `getnum` with `fixed = true`: exactly two digits. -/
def getnum2 : List Char → Option (Nat × List Char)
  | a :: b :: rest =>
    if isDigit09 a && isDigit09 b then some (digitVal a * 10 + digitVal b, rest) else none
  | _ => none

/-- Go `getnum` with `fixed = false`: one digit, or two when the next
character is also a digit. -/
def getnumLenient : List Char → Option (Nat × List Char)
  | [] => none
  | a :: rest =>
    if isDigit09 a then
      match rest with
      | b :: rest2 =>
        if isDigit09 b then some (digitVal a * 10 + digitVal b, rest2)
        else some (digitVal a, rest)
      | [] => some (digitVal a, [])
    else none

/-- Go `stdLongYear`: exactly four digits. -/
def getYear4 : List Char → Option (Nat × List Char)
  | a :: b :: c :: d :: rest =>
    if isDigit09 a && isDigit09 b && isDigit09 c && isDigit09 d then
      some (((digitVal a * 10 + digitVal b) * 10 + digitVal c) * 10 + digitVal d, rest)
    else none
  | _ => none

def expectChar (c : Char) : List Char → Option (List Char)
  | x :: rest => if x = c then some rest else none
  | [] => none

/-- The `".000"` fraction: comma or period, then three characters Go's
`atoi` accepts with a non-negative value. -/
def parseFrac3 : List Char → Option (List Char)
  | s :: a :: b :: c :: rest =>
    if (s = '.' || s = ',') &&
       ((isDigit09 a && isDigit09 b && isDigit09 c) ||
        (a = '+' && isDigit09 b && isDigit09 c)) then
      some rest
    else none
  | _ => none

/-- The `"-0700"` numeric zone: a sign and four digits (no range check
in Go). -/
def parseZone : List Char → Option (List Char)
  | s :: a :: b :: c :: d :: rest =>
    if (s = '+' || s = '-') && isDigit09 a && isDigit09 b && isDigit09 c && isDigit09 d then
      some rest
    else none
  | _ => none

/-- The `"2006-01-02"` part: year, month, day. -/
def parseDatePart (l : List Char) : Option (Nat × Nat × Nat × List Char) := do
  let (y, l) ← getYear4 l
  let l ← expectChar '-' l
  let (mo, l) ← getnum2 l
  let l ← expectChar '-' l
  let (d, l) ← getnum2 l
  some (y, mo, d, l)

/-- The `"15:04:05"` part: hour (lenient), minute, second. -/
def parseTimePart (l : List Char) : Option (Nat × Nat × Nat × List Char) := do
  let (h, l) ← getnumLenient l
  let l ← expectChar ':' l
  let (mi, l) ← getnum2 l
  let l ← expectChar ':' l
  let (se, l) ← getnum2 l
  some (h, mi, se, l)

/-- Go's range validation: month 1–12, day within the month, hour ≤ 23,
minute and second ≤ 59. -/
def validRanges (t : ParsedTime) : Bool :=
  1 ≤ t.month && t.month ≤ 12 && 1 ≤ t.day && t.day ≤ daysIn t.month t.year &&
    t.hour ≤ 23 && t.minute ≤ 59 && t.second ≤ 59

def parseJiraTimeChars (l : List Char) : Option ParsedTime := do
  let (y, mo, d, l) ← parseDatePart l
  let l ← expectChar 'T' l
  let (h, mi, se, l) ← parseTimePart l
  let l ← parseFrac3 l
  let l ← parseZone l
  let t : ParsedTime := { year := y, month := mo, day := d, hour := h, minute := mi, second := se }
  if l = [] && validRanges t then some t else none

def parseJiraTime (s : String) : Option ParsedTime := parseJiraTimeChars s.data

def pad2 (n : Nat) : String := if n < 10 then "0" ++ toString n else toString n

def pad4 (n : Nat) : String :=
  if n < 10 then "000" ++ toString n
  else if n < 100 then "00" ++ toString n
  else if n < 1000 then "0" ++ toString n
  else toString n

/-- The `"2006-01-02 15:04:05"` rendering of the parsed wall clock. -/
def renderDateTime (t : ParsedTime) : String :=
  pad4 t.year ++ "-" ++ pad2 t.month ++ "-" ++ pad2 t.day ++ " " ++
    pad2 t.hour ++ ":" ++ pad2 t.minute ++ ":" ++ pad2 t.second

def formatDate (dateStr : String) : String :=
  if dateStr = "" then "N/A"
  else
    match parseJiraTime dateStr with
    | some t => renderDateTime t
    | none => dateStr

example : formatDate "" = "N/A" := by decide
example : formatDate "not-a-date" = "not-a-date" := by decide
example : formatDate "2025-01-01T10:30:45.123+0300" = "2025-01-01 10:30:45" := by decide
example : formatDate "2025-01-01T9:30:45.123+0300" = "2025-01-01 09:30:45" := by decide
example : formatDate "2025-02-30T10:30:45.123+0300" = "2025-02-30T10:30:45.123+0300" := by decide
example : formatDate "2024-02-29T00:00:00.000-0700" = "2024-02-29 00:00:00" := by decide
example : formatDate "2020-07-28T16:39:54.620+0530" = "2020-07-28 16:39:54" := by decide

/-! ## Narrative report (generateMarkdown)

Two environmental inputs of the Go function are made explicit
parameters: `now`, the `time.Now()` timestamp already rendered with
layout `"2006-01-02 15:04:05"`, and `statusEnum`, the enumeration order
of the `statusCount` map (Go map iteration order is unspecified, so any
permutation of the status-key set can occur; `IsStatusEnum` captures
admissibility). -/

/-- `strings.ReplaceAll(s, "\n", "\n> ")`, specialised to the
single-character pattern actually used. -/
def replaceNLAux (repl : List Char) : List Char → List Char
  | [] => []
  | c :: cs => if c = '\n' then repl ++ replaceNLAux repl cs else c :: replaceNLAux repl cs

def quoteNewlines (s : String) : String :=
  (replaceNLAux ('\n' :: '>' :: ' ' :: []) s.data).asString

example : quoteNewlines "a\nb" = "a\n> b" := by decide

def tasksOf (r : TransitionCheckResponse) : List JiraTransitionResult :=
  match r.tasks with
  | none => []
  | some l => l

def assigneeDisplay : Option String → String
  | some s => if s ≠ "" then s else "Unassigned"
  | none => "Unassigned"

def keyDisplay (t : JiraTransitionResult) : String :=
  if t.link ≠ "" then "[" ++ t.key ++ "](" ++ t.link ++ ")" else t.key

def summaryRow (t : JiraTransitionResult) : String :=
  "| " ++ keyDisplay t ++ " | " ++ t.status ++ " | " ++ t.type ++ " | " ++
    t.priority ++ " | " ++ assigneeDisplay t.assignee ++ " |\n"

def transitionRow (tr : Transition) : String :=
  "| " ++ tr.fromStatus ++ " | " ++ tr.toStatus ++ " | " ++ tr.author ++ " | " ++
    formatDate tr.transitionTime ++ " |\n"

def transitionSection (t : JiraTransitionResult) : String :=
  match t.transitions with
  | none => ""
  | some [] => ""
  | some ts =>
    "\n**Transition History:**\n\n" ++
    "| From Status | To Status | Author | Date |\n" ++
    "|-------------|-----------|--------|------|\n" ++
    String.join (ts.map transitionRow)

def descriptionSection (t : JiraTransitionResult) : String :=
  if t.description ≠ "" then
    "\n**Description:**\n" ++ "> " ++ quoteNewlines t.description ++ "\n"
  else ""

def taskDetail (i : Nat) (t : JiraTransitionResult) : String :=
  "### " ++ toString (i + 1) ++ ". " ++ keyDisplay t ++ "\n\n" ++
  "**Basic Information:**\n" ++
  "- **Status:** " ++ t.status ++ "\n" ++
  "- **Type:** " ++ t.type ++ "\n" ++
  "- **Project:** " ++ t.project ++ "\n" ++
  "- **Priority:** " ++ t.priority ++ "\n" ++
  "\n**People:**\n" ++
  "- **Assignee:** " ++ assigneeDisplay t.assignee ++ "\n" ++
  "- **Reporter:** " ++ t.reporter ++ "\n" ++
  "\n**Dates:**\n" ++
  "- **Created:** " ++ formatDate t.created ++ "\n" ++
  "- **Updated:** " ++ formatDate t.updated ++ "\n" ++
  descriptionSection t ++
  transitionSection t ++
  "\n---\n\n"

/-- The first-seen (insertion-order) enumeration of the `statusCount`
map's keys. -/
def statusKeys (tasks : List JiraTransitionResult) : List String :=
  tasks.foldl (fun acc t => insertKey acc t.status) []

def statusCount (tasks : List JiraTransitionResult) (s : String) : Nat :=
  (tasks.filter (fun t => t.status = s)).length

def statusRow (tasks : List JiraTransitionResult) (s : String) : String :=
  "| " ++ s ++ " | " ++ toString (statusCount tasks s) ++ " |\n"

/-- Everything `generateMarkdown` emits before the status-distribution
section; independent of the map-enumeration order. -/
def mdBeforeStatus (r : TransitionCheckResponse) (now : String) : String :=
  "# JIRA Tasks Report\n\n" ++
  "Generated on: " ++ now ++ "\n\n" ++
  "Total tasks: " ++ toString (tasksOf r).length ++ "\n\n" ++
  "## Summary\n\n" ++
  "| Key | Status | Type | Priority | Assignee |\n" ++
  "|-----|--------|------|----------|----------|\n" ++
  String.join ((tasksOf r).map summaryRow) ++ "\n" ++
  "## Task Details\n\n" ++
  String.join ((tasksOf r).enum.map (fun p => taskDetail p.1 p.2))

def generateMarkdown (r : TransitionCheckResponse) (now : String) (statusEnum : List String) : String :=
  mdBeforeStatus r now ++
  "## Status Distribution\n\n" ++
  "| Status | Count |\n" ++
  "|--------|-------|\n" ++
  String.join (statusEnum.map (statusRow (tasksOf r)))

/-- `e` is a possible iteration order of the `statusCount` map. -/
def IsStatusEnum (r : TransitionCheckResponse) (e : List String) : Prop :=
  e.Perm (statusKeys (tasksOf r))

/-! ## Errors (errors.go) and the git service (config.go)

The external git binary is an oracle `GitExec`; a `.error` outcome is a
failing `cmd.Output()` carrying its message. -/

inductive AppError where
  | git (operation : String) (msg : String)
  | validation (field value msg : String)
  | simple (msg : String)
deriving DecidableEq

/-- The `Error()` renderings of errors.go (`fmt.Errorf` wrapping
prepends its prefix to this rendering). -/
def errString : AppError → String
  | .git op msg => "git operation '" ++ op ++ "' failed: " ++ msg
  | .validation f v msg => "validation failed for " ++ f ++ "='" ++ v ++ "': " ++ msg
  | .simple msg => msg

def GitExec : Type := List String → Except String String

/-- `strings.TrimSpace` over the ASCII whitespace set (the Unicode
extras never occur in the modelled outputs). -/
def isSpaceGo (c : Char) : Bool :=
  c = ' ' || c = '\t' || c = '\n' || c = '\r' || c = '\x0b' || c = '\x0c'

def trimGo (s : String) : String :=
  (((s.data.dropWhile isSpaceGo).reverse.dropWhile isSpaceGo).reverse).asString

example : trimGo "  main\n" = "main" := by decide

/-- `defaultGitCommand`: run git, wrap failure in a `GitError` naming
the joined arguments, trim the output. -/
def gitCmd (g : GitExec) (args : List String) : Except AppError String :=
  match g args with
  | .error e => .error (.git (String.intercalate " " args) e)
  | .ok out => .ok (trimGo out)

/-- `GetBranchInfo`: branch name, latest commit hash, and the seed
identifier extracted from the latest commit subject with the built-in
default pattern (`extractFirstJIRAID(subject, DefaultJIRAIDRegex)`,
whose compilation always succeeds). -/
def GetBranchInfo (g : GitExec) : Except AppError (String × String × String) :=
  match gitCmd g ["branch", "--show-current"] with
  | .error e => .error e
  | .ok branchName =>
    match gitCmd g ["log", "-1", "--format=%H%n%s"] with
    | .error e => .error e
    | .ok commitOutput =>
      match splitLines commitOutput with
      | commitHash :: subject :: _ =>
        .ok (branchName, commitHash, extractFirstJIRAID subject defaultJIRAPattern)
      | _ => .error (.git "log -1" "unexpected output format")

def isHexGo (c : Char) : Bool :=
  ('a' ≤ c && c ≤ 'f') || ('A' ≤ c && c ≤ 'F') || isDigit09 c

/-- `validateCommitHash`: non-empty and matching `^[a-fA-F0-9]+$`. -/
def validateCommitHash (hash : String) : Option AppError :=
  if hash = "" then some (.validation "commit" hash "cannot be empty")
  else if hash.data.all isHexGo then none
  else some (.validation "commit" hash "invalid format")

def ValidateCommit (g : GitExec) (commit : String) : Except AppError Unit :=
  match validateCommitHash commit with
  | some e => .error e
  | none =>
    match gitCmd g ["rev-parse", "--verify", commit] with
    | .error _ => .error (.git "rev-parse --verify" ("commit '" ++ commit ++ "' not found"))
    | .ok _ => .ok ()

def ValidateHEAD (g : GitExec) : Except AppError Unit :=
  match gitCmd g ["rev-parse", "--verify", "HEAD"] with
  | .error _ => .error (.git "rev-parse --verify HEAD" "repository may be empty or corrupted")
  | .ok _ => .ok ()

def CheckRepository (g : GitExec) : Except AppError Unit :=
  match gitCmd g ["rev-parse", "--git-dir"] with
  | .error _ => .error (.git "rev-parse --git-dir" "not in a git repository")
  | .ok _ => .ok ()

/-- `ExtractJiraIDs`, with the canonical (first-seen) enumeration
standing in for the Go map's order; `IsExtractJiraIDsOutput` below
quantifies over the possible orders. -/
def ExtractJiraIDsCanon (g : GitExec) (compile : String → Option Pattern)
    (startCommit jiraIDRegex currentJiraID : String) (singleCommit : Bool) :
    Except AppError (List String) :=
  match ValidateCommit g startCommit with
  | .error e => .error e
  | .ok _ =>
    let logResult :=
      if singleCommit then gitCmd g ["log", "-1", "--pretty=format:%s", startCommit]
      else gitCmd g ["log", "--pretty=format:%s", startCommit ++ "..HEAD"]
    match logResult with
    | .error e => .error e
    | .ok output =>
      match compile jiraIDRegex with
      | none => .error (.validation "jira_id_regex" jiraIDRegex "regexp compile error")
      | some regex =>
        -- in single commit mode, don't add currentJiraID from branch
        let jiraIDToAdd := if singleCommit then "" else currentJiraID
        .ok (extractUniqueCanonical output jiraIDToAdd regex)

/-- `out` is a possible return of Go's `ExtractJiraIDs` run. -/
def IsExtractJiraIDsOutput (g : GitExec) (compile : String → Option Pattern)
    (startCommit jiraIDRegex currentJiraID : String) (singleCommit : Bool)
    (out : List String) : Prop :=
  ∃ canon, ExtractJiraIDsCanon g compile startCommit jiraIDRegex currentJiraID singleCommit =
    .ok canon ∧ out.Perm canon

/-! ## Configuration (config.go) -/

structure FlagConfig where
  jiraIDRegex : String
  outputFile : String
  extractOnly : Bool
  extractFromGit : Bool
  commitRange : Bool
  help : Bool
  helpLong : Bool
  generateMarkdown : Bool
  markdownOutput : String

/-- The zero `FlagConfig`: no flag given. -/
def noFlags : FlagConfig :=
  { jiraIDRegex := "", outputFile := "", extractOnly := false, extractFromGit := false
    commitRange := false, help := false, helpLong := false, generateMarkdown := false
    markdownOutput := "" }

structure AppConfig where
  jiraToken : String
  jiraURL : String
  jiraUsername : String
  jiraIDRegex : String
  outputFile : String
  extractOnly : Bool
  extractFromGit : Bool
  singleCommit : Bool
  startCommit : String
  jiraIDs : List String

def getOrDefault : List String → String
  | [] => ""
  | v :: rest => if v ≠ "" then v else getOrDefault rest

def validateJIRAConfig (config : AppConfig) : Option AppError :=
  if config.jiraToken = "" then
    some (.validation "JIRA_API_TOKEN" "" "environment variable is required")
  else if config.jiraURL = "" then
    some (.validation "JIRA_URL" "" "environment variable is required")
  else if config.jiraUsername = "" then
    some (.validation "JIRA_USERNAME" "" "environment variable is required")
  else none

/-- `LoadConfig(flags, args)`; the environment is the oracle `env`
(`args` is accepted and unused, as in the source). -/
def LoadConfig (env : String → String) (flags : FlagConfig) (_args : List String) :
    Except AppError AppConfig :=
  let base : AppConfig :=
    { jiraToken := "", jiraURL := "", jiraUsername := ""
      jiraIDRegex := getOrDefault [flags.jiraIDRegex, env "JIRA_ID_REGEX", DefaultJIRAIDRegex]
      outputFile := getOrDefault [flags.outputFile, env "OUTPUT_FILE", DefaultOutputFile]
      extractOnly := flags.extractOnly
      extractFromGit := flags.extractFromGit
      singleCommit := !flags.commitRange
      startCommit := "", jiraIDs := [] }
  if !base.extractOnly && !base.extractFromGit && !flags.generateMarkdown then
    let cfg := { base with
      jiraToken := env "JIRA_API_TOKEN"
      jiraURL := env "JIRA_URL"
      jiraUsername := env "JIRA_USERNAME" }
    match validateJIRAConfig cfg with
    | some e => .error e
    | none => .ok cfg
  else .ok base

/-! ## Execution environment and modes (main.go, the mode runner file)

`World` bundles every external boundary: the git binary, the process
environment, the regexp compiler, the tracker call, tracker-client
construction, the read-and-parse of the markdown-mode input file, the
output write, and the clock.  Print statements only reach stdout or
stderr and are not modelled; each mode function's value is its returned
error (or success). -/

/-- Outcome of `os.ReadFile` + `json.Unmarshal` on the markdown-mode
input file: unreadable, not JSON text, or a JSON document. -/
inductive ReadResult where
  | readErr (msg : String)
  | notJson (msg : String)
  | doc (v : JValue)

structure World where
  gitExec : GitExec
  env : String → String
  compile : String → Option Pattern
  getIssue : String → Option Issue × Option String
  newClient : String → Option String
  readDoc : String → ReadResult
  writeFile : String → Option String
  now : String

/-- `regexp.Compile`, specialized to the two patterns the concrete
scenarios below compile. -/
def stdCompile : String → Option Pattern :=
  fun s =>
    if s = DefaultJIRAIDRegex then some defaultJIRAPattern
    else if s = "XY-[0-9]+" then some xyPattern
    else none

def NewJiraClient (w : World) : Except AppError JiraClient :=
  if w.env "JIRA_API_TOKEN" = "" then
    .error (.validation "JIRA_API_TOKEN" "" "environment variable not found")
  else if w.env "JIRA_URL" = "" then
    .error (.validation "JIRA_URL" "" "environment variable not found")
  else if w.env "JIRA_USERNAME" = "" then
    .error (.validation "JIRA_USERNAME" "" "environment variable not found")
  else
    match w.newClient (w.env "JIRA_URL") with
    | some e => .error (.simple ("failed to create JIRA client: " ++ e))
    | none => .ok { getIssue := w.getIssue, baseURL := w.env "JIRA_URL" }

/-- `saveJiraResults`: the bytes written render
`marshalResponse response` (`MarshalIndent` cannot fail on these
struct types; its byte rendering of the tree is outside the model). -/
def saveJiraResults (w : World) (_response : TransitionCheckResponse) (config : AppConfig) :
    Except AppError Unit :=
  match w.writeFile config.outputFile with
  | some e => .error (.simple ("error writing to file: " ++ e))
  | none => .ok ()

def runExtractOnlyMode (w : World) (config : AppConfig) : Except AppError Unit :=
  match GetBranchInfo w.gitExec with
  | .error err => .error (.simple ("failed to get branch info: " ++ errString err))
  | .ok (_, _, currentJiraID) =>
    match ValidateHEAD w.gitExec with
    | .error _ => .ok () -- reported to stderr; exit gracefully
    | .ok _ =>
      match ExtractJiraIDsCanon w.gitExec w.compile config.startCommit config.jiraIDRegex
          currentJiraID config.singleCommit with
      | .error err => .error (.simple ("failed to extract JIRA IDs: " ++ errString err))
      | .ok _ => .ok () -- result (possibly empty) is only printed

def runLegacyExtractFromGit (w : World) (args : List String) : Except AppError Unit :=
  match args with
  | startCommit :: regex :: _ =>
    (match GetBranchInfo w.gitExec with
     | .error err => .error (.simple ("error getting branch info: " ++ errString err))
     | .ok (_, _, currentJiraID) =>
       match ValidateHEAD w.gitExec with
       | .error _ => .ok () -- exit gracefully
       | .ok _ =>
         match ValidateCommit w.gitExec startCommit with
         | .error _ => .ok () -- exit gracefully
         | .ok _ =>
           match ExtractJiraIDsCanon w.gitExec w.compile startCommit regex currentJiraID false with
           | .error err => .error (.simple ("error extracting JIRA IDs: " ++ errString err))
           | .ok _ => .ok ())
  | _ => .error (.simple "insufficient arguments")

def runFullMode (w : World) (config : AppConfig) : Except AppError Unit :=
  match GetBranchInfo w.gitExec with
  | .error err => .error (.simple ("error getting branch info: " ++ errString err))
  | .ok (_, _, currentJiraID) =>
    match ValidateHEAD w.gitExec with
    | .error _ => .ok () -- reported to stderr; exit gracefully
    | .ok _ =>
      match ExtractJiraIDsCanon w.gitExec w.compile config.startCommit config.jiraIDRegex
          currentJiraID config.singleCommit with
      | .error err => .error (.simple ("error extracting JIRA IDs: " ++ errString err))
      | .ok jiraIDs =>
        if jiraIDs.isEmpty then .ok ()
        else
          match NewJiraClient w with
          | .error err => .error (.simple ("error creating JIRA client: " ++ errString err))
          | .ok jc => saveJiraResults w (FetchJiraDetails jc jiraIDs) config

def processDirectJiraIDs (w : World) (config : AppConfig) : Except AppError Unit :=
  match NewJiraClient w with
  | .error err => .error (.simple ("error creating JIRA client: " ++ errString err))
  | .ok jc => saveJiraResults w (FetchJiraDetails jc config.jiraIDs) config

def GenerateMarkdownFromJSON (w : World) (inputFile outputFile : String) :
    Except AppError Unit :=
  match w.readDoc inputFile with
  | .readErr m => .error (.simple ("error reading JSON file: " ++ m))
  | .notJson m => .error (.simple ("error parsing JSON: " ++ m))
  | .doc v =>
    match unmarshalResponse v with
    | none => .error (.simple "error parsing JSON: cannot unmarshal into the response type")
    | some response =>
      -- the bytes written render `generateMarkdown response w.now e` for
      -- some admissible enumeration `e`; the choice cannot affect write success
      let _markdown := generateMarkdown response w.now (statusKeys (tasksOf response))
      match w.writeFile outputFile with
      | some m => .error (.simple ("error writing markdown file: " ++ m))
      | none => .ok ()

def runMarkdownMode (w : World) (flags : FlagConfig) : Except AppError Unit :=
  let inputFile := getOrDefault [flags.outputFile, w.env "OUTPUT_FILE", DefaultOutputFile]
  let outputFile := getOrDefault [flags.markdownOutput, "transformed_jira_data.md"]
  GenerateMarkdownFromJSON w inputFile outputFile

/-! ## Mode selection (determineExecutionMode) and main -/

def allArgsMatchPattern (args : List String) (regex : Pattern) : Bool :=
  args.all (fun arg => regex.matchStr arg)

/-- Which branch of `determineExecutionMode`'s dispatch runs. -/
inductive ModeChoice where
  | markdown
  | legacy
  | missingArgs
  | direct (ids : List String)
  | gitBased
deriving DecidableEq

/-- The dispatch structure of `determineExecutionMode`: markdown flag
first, then legacy flag, then the missing-argument check, then the
direct-identifier test (skipped under `--extract-only`, skipped when the
pattern does not compile), else git-based. -/
def selectedMode (flags : FlagConfig) (args : List String) (config : AppConfig)
    (compile : String → Option Pattern) : ModeChoice :=
  if flags.generateMarkdown then .markdown
  else if flags.extractFromGit then .legacy
  else if args.isEmpty then .missingArgs
  else if !flags.extractOnly then
    match compile config.jiraIDRegex with
    | some regex => if allArgsMatchPattern args regex then .direct args else .gitBased
    | none => .gitBased
  else .gitBased

def determineExecutionMode (w : World) (flags : FlagConfig) (args : List String)
    (config : AppConfig) : Except AppError Unit :=
  match selectedMode flags args config w.compile with
  | .markdown => runMarkdownMode w flags
  | .legacy => runLegacyExtractFromGit w args
  | .missingArgs => .error (.simple "missing required arguments")
  | .direct ids => processDirectJiraIDs w { config with jiraIDs := ids }
  | .gitBased =>
    -- config.StartCommit = args[0] (args is non-empty on this branch)
    let cfg := { config with startCommit := args.headD "" }
    match CheckRepository w.gitExec with
    | .error e => .error e
    | .ok _ =>
      if cfg.extractOnly then runExtractOnlyMode w cfg else runFullMode w cfg

/-- `main`'s exit code: 0 after help; 1 when configuration loading or
the executed mode returns an error; 0 otherwise. -/
def mainExitCode (w : World) (flags : FlagConfig) (args : List String) : Nat :=
  if flags.help || flags.helpLong then 0
  else
    match LoadConfig w.env flags args with
    | .error _ => 1
    | .ok config =>
      match determineExecutionMode w flags args config with
      | .error _ => 1
      | .ok _ => 0

/-! ## Concrete scenario data (for witnesses and counterexamples) -/

def demoFields : IssueFields :=
  { status := some ⟨"Done"⟩, description := "implemented", type := ⟨"Task"⟩
    project := ⟨"EV"⟩, created := "2020-01-01T12:11:56.063+0530"
    updated := "2020-01-01T12:12:01.876+0530", assignee := none, reporter := none
    priority := none }

def demoIssue : Issue :=
  { key := "EV-123", fields := some demoFields, changelog := none }

/-- A tracker oracle that knows one issue and fails on everything
else. -/
def demoClient : JiraClient :=
  { getIssue := fun id =>
      if id = "EV-123" then (some demoIssue, none) else (none, some "request failed")
    baseURL := "https://jira.example.com" }

/-- A git oracle for a repository whose commit range after `abc123`
has the single subject `"XY-2 some fix"`. -/
def gitOracleXY : GitExec := fun args =>
  if args = ["rev-parse", "--verify", "abc123"] then .ok "abc123abc123abc123ab"
  else if args = ["log", "--pretty=format:%s", "abc123..HEAD"] then .ok "XY-2 some fix"
  else if args = ["log", "-1", "--pretty=format:%s", "abc123"] then .ok "EV-5 fix typo"
  else .error "unexpected git invocation"

/-- A git oracle outside any repository: every git call fails. -/
def gitNoRepo : GitExec := fun _ => .error "exit status 128"

def envFull : String → String := fun k =>
  if k = "JIRA_API_TOKEN" then "tok"
  else if k = "JIRA_URL" then "https://jira.example.com"
  else if k = "JIRA_USERNAME" then "user@example.com"
  else ""

def worldNoRepo : World :=
  { gitExec := gitNoRepo, env := envFull, compile := stdCompile
    getIssue := fun _ => (none, some "unreachable"), newClient := fun _ => none
    readDoc := fun _ => .readErr "no such file", writeFile := fun _ => none
    now := "2025-01-01 00:00:00" }

def worldXY : World := { worldNoRepo with gitExec := gitOracleXY }

def taskDone : JiraTransitionResult :=
  { key := "EV-1", link := "", status := "Done", description := "", type := "Task"
    project := "EV", created := "", updated := "", assignee := none, reporter := ""
    priority := "", transitions := none }

def taskOpen : JiraTransitionResult :=
  { taskDone with key := "EV-2", status := "Open" }

def respAB : TransitionCheckResponse := { tasks := some [taskDone, taskOpen] }

/-- The configuration `LoadConfig` produces from `envFull` and no
flags. -/
def demoConfig : AppConfig :=
  { jiraToken := "tok", jiraURL := "https://jira.example.com"
    jiraUsername := "user@example.com", jiraIDRegex := DefaultJIRAIDRegex
    outputFile := DefaultOutputFile, extractOnly := false, extractFromGit := false
    singleCommit := true, startCommit := "", jiraIDs := [] }

/-! ## Helper lemmas -/

theorem mem_insertKey {l : List String} {x y : String} :
    x ∈ insertKey l y ↔ x ∈ l ∨ x = y := by
  unfold insertKey
  by_cases h : y ∈ l
  · rw [if_pos h]
    constructor
    · exact Or.inl
    · rintro (hx | rfl)
      · exact hx
      · exact h
  · rw [if_neg h]
    simp

theorem insertKey_nodup {l : List String} {y : String} (h : l.Nodup) :
    (insertKey l y).Nodup := by
  unfold insertKey
  by_cases hy : y ∈ l
  · rwa [if_pos hy]
  · rw [if_neg hy]
    simp only [List.nodup_append, List.nodup_singleton, true_and]
    refine ⟨h, ?_⟩
    simp [List.Disjoint]
    intro a ha hay
    exact hy (by rwa [hay] at ha)

theorem foldl_insertKey_nodup (ms acc : List String) (h : acc.Nodup) :
    (ms.foldl insertKey acc).Nodup := by
  induction ms generalizing acc with
  | nil => exact h
  | cons m t ih => exact ih _ (insertKey_nodup h)

theorem mem_foldl_insertKey {x : String} (ms acc : List String) :
    x ∈ ms.foldl insertKey acc ↔ x ∈ acc ∨ x ∈ ms := by
  induction ms generalizing acc with
  | nil => simp
  | cons m t ih =>
    simp only [List.foldl_cons, ih, mem_insertKey, List.mem_cons]
    tauto

theorem mem_linesFold {x : String} (p : Pattern) (lines acc : List String) :
    x ∈ lines.foldl (fun acc line => (p.findAll line).foldl insertKey acc) acc ↔
      x ∈ acc ∨ ∃ line ∈ lines, x ∈ p.findAll line := by
  induction lines generalizing acc with
  | nil => simp
  | cons l t ih =>
    simp only [List.foldl_cons, ih, mem_foldl_insertKey, List.mem_cons]
    constructor
    · rintro ((h | h) | ⟨line, hl, hx⟩)
      · exact Or.inl h
      · exact Or.inr ⟨l, Or.inl rfl, h⟩
      · exact Or.inr ⟨line, Or.inr hl, hx⟩
    · rintro (h | ⟨line, (rfl | hl), hx⟩)
      · exact Or.inl (Or.inl h)
      · exact Or.inl (Or.inr hx)
      · exact Or.inr ⟨line, hl, hx⟩

theorem linesFold_nodup (p : Pattern) (lines acc : List String) (h : acc.Nodup) :
    (lines.foldl (fun acc line => (p.findAll line).foldl insertKey acc) acc).Nodup := by
  induction lines generalizing acc with
  | nil => exact h
  | cons l t ih => exact ih _ (foldl_insertKey_nodup _ _ h)

theorem extractKeys_nodup (msgs cur : String) (p : Pattern) :
    (extractKeys msgs cur p).Nodup := by
  unfold extractKeys
  apply linesFold_nodup
  split
  · exact List.nodup_singleton _
  · exact List.nodup_nil

theorem mem_extractKeys {x : String} (msgs cur : String) (p : Pattern) :
    x ∈ extractKeys msgs cur p ↔
      ((cur ≠ "" ∧ p.matchStr cur = true) ∧ x = cur) ∨
        ∃ line ∈ splitLines msgs, x ∈ p.findAll line := by
  unfold extractKeys
  rw [mem_linesFold]
  have hinit : x ∈ (if cur ≠ "" ∧ p.matchStr cur = true then [cur] else ([] : List String)) ↔
      ((cur ≠ "" ∧ p.matchStr cur = true) ∧ x = cur) := by
    split
    · rename_i hc
      simp [hc]
    · rename_i hc
      simp [hc]
  rw [hinit]

theorem extractUniqueCanonical_nodup (msgs cur : String) (p : Pattern) :
    (extractUniqueCanonical msgs cur p).Nodup :=
  (extractKeys_nodup msgs cur p).filter _

theorem mem_extractUniqueCanonical {x : String} (msgs cur : String) (p : Pattern) :
    x ∈ extractUniqueCanonical msgs cur p ↔ x ≠ "" ∧ x ∈ extractKeys msgs cur p := by
  unfold extractUniqueCanonical
  simp only [List.mem_filter, decide_eq_true_eq]
  tauto

theorem extractKeys_no_match (msgs cur : String) (p : Pattern)
    (h : p.matchStr cur = false) :
    extractKeys msgs cur p = extractKeys msgs "" p := by
  have h1 : ¬(cur ≠ "" ∧ p.matchStr cur = true) := by
    rintro ⟨-, hm⟩
    rw [h] at hm
    cases hm
  have h2 : ¬(("" : String) ≠ "" ∧ p.matchStr "" = true) := by
    rintro ⟨h0, -⟩
    exact h0 rfl
  simp only [extractKeys]
  rw [if_neg h1, if_neg h2]

theorem createErrorResult_desc (jiraID : String) (err : Option String) :
    ∃ rest, (createErrorResult jiraID err).description = "Error:" ++ rest := by
  cases err with
  | none => exact ⟨" Could not retrieve issue", rfl⟩
  | some e => exact ⟨" " ++ e, rfl⟩

theorem fetchSingle_failed {jc : JiraClient} {jiraID : String} (h : FetchFailed jc jiraID) :
    ∃ e, fetchSingleJiraDetail jc jiraID = createErrorResult jiraID e := by
  unfold fetchSingleJiraDetail
  rcases hg : jc.getIssue jiraID with ⟨iss, err⟩
  rcases err with _ | e
  · rcases iss with _ | issue
    · exact ⟨none, rfl⟩
    · rcases h with h | h | ⟨i2, hi2, hf⟩
      · rw [hg] at h
        simp at h
      · rw [hg] at h
        simp at h
      · rw [hg] at hi2
        simp only at hi2
        cases hi2
        exact ⟨none, by simp [hf]⟩
  · exact ⟨some e, by cases iss <;> rfl⟩

theorem hasJiraTriple_cons (c : Char) {l : List Char} (h : hasJiraTriple l = true) :
    hasJiraTriple (c :: l) = true := by
  cases l with
  | nil => simp [hasJiraTriple] at h
  | cons a t =>
    cases t with
    | nil => simp [hasJiraTriple] at h
    | cons b u =>
      simp only [hasJiraTriple, Bool.or_eq_true] at h ⊢
      exact Or.inr h

theorem hasJiraTriple_prepend (pre : List Char) {l : List Char}
    (h : hasJiraTriple l = true) : hasJiraTriple (pre ++ l) = true := by
  induction pre with
  | nil => exact h
  | cons c t ih => exact hasJiraTriple_cons c ih

theorem hasJiraTriple_append {l : List Char} (suf : List Char)
    (h : hasJiraTriple l = true) : hasJiraTriple (l ++ suf) = true := by
  induction l with
  | nil => simp [hasJiraTriple] at h
  | cons a t ih =>
    cases t with
    | nil => simp [hasJiraTriple] at h
    | cons b u =>
      cases u with
      | nil => simp [hasJiraTriple] at h
      | cons c v =>
        simp only [List.cons_append]
        simp only [hasJiraTriple, Bool.or_eq_true] at h ⊢
        rcases h with h | h
        · exact Or.inl h
        · have := ih h
          simp only [List.cons_append] at this
          exact Or.inr this

theorem matchStringJira_substring (pre mid suf : String)
    (h : matchStringJira mid = true) :
    matchStringJira (pre ++ mid ++ suf) = true := by
  unfold matchStringJira at h ⊢
  rw [String.data_append, String.data_append, List.append_assoc]
  exact hasJiraTriple_prepend _ (hasJiraTriple_append _ h)

theorem decOpt_marshalOpt (a : Option String) :
    decOptString (marshalOptString a) = some a := by
  cases a <;> rfl

theorem decodeArr_map {α : Type} (dec : JValue → Option α) (f : α → JValue)
    (h : ∀ x, dec (f x) = some x) (l : List α) :
    decodeArr dec (l.map f) = some l := by
  induction l with
  | nil => rfl
  | cons x t ih => simp [decodeArr, h x, ih]

theorem decTransition_marshal (t : Transition) :
    decTransition (marshalTransition t) = some t := by
  cases t
  rfl

theorem decTransitionList_marshal (tr : Option (List Transition)) :
    decTransitionList (marshalTransitionList tr) = some tr := by
  cases tr with
  | none => rfl
  | some l =>
    simp [marshalTransitionList, decTransitionList,
      decodeArr_map decTransition marshalTransition decTransition_marshal]

theorem decResult_marshal (r : JiraTransitionResult) :
    decResult (marshalResult r) = some r := by
  obtain ⟨k, link, s, d, ty, pj, c, u, a, re, pr, tr⟩ := r
  by_cases hl : link = ""
  · subst hl
    simp [marshalResult, decResult, jMember, jLookup, decString,
      decOpt_marshalOpt, decTransitionList_marshal]
  · simp [marshalResult, decResult, jMember, jLookup, if_neg hl, decString,
      decOpt_marshalOpt, decTransitionList_marshal]

/-- Dissection of a successful `ExtractJiraIDs` run. -/
theorem ExtractJiraIDsCanon_ok_iff (g : GitExec) (compile : String → Option Pattern)
    (startCommit rx cur : String) (single : Bool) (canon : List String) :
    ExtractJiraIDsCanon g compile startCommit rx cur single = .ok canon ↔
      ValidateCommit g startCommit = .ok () ∧
      ∃ msg p,
        (if single then gitCmd g ["log", "-1", "--pretty=format:%s", startCommit]
         else gitCmd g ["log", "--pretty=format:%s", startCommit ++ "..HEAD"]) = .ok msg ∧
        compile rx = some p ∧
        canon = extractUniqueCanonical msg (if single then "" else cur) p := by
  unfold ExtractJiraIDsCanon
  rcases hv : ValidateCommit g startCommit with e | u
  · constructor
    · intro h
      simp at h
    · rintro ⟨hok, -⟩
      cases hok
  · cases u
    rcases hlog : (if single then gitCmd g ["log", "-1", "--pretty=format:%s", startCommit]
        else gitCmd g ["log", "--pretty=format:%s", startCommit ++ "..HEAD"]) with e | msg
    · constructor
      · intro h
        simp at h
      · rintro ⟨-, msg, p, hm, -, -⟩
        cases hm
    · rcases hc : compile rx with _ | p
      · constructor
        · intro h
          simp at h
        · rintro ⟨-, msg2, p2, -, hcp, -⟩
          cases hcp
      · constructor
        · intro h
          simp only [] at h
          refine ⟨rfl, msg, p, rfl, rfl, ?_⟩
          simp at h
          exact h.symm
        · rintro ⟨-, msg2, p2, hm, hcp, hcanon⟩
          injection hm with hm2
          subst hm2
          injection hcp with hcp2
          subst hcp2
          simp [hcanon]

/-! ## Claim theorems -/

/-- C8: serializing an `EvidenceResponse` to the structured JSON form
(as `saveJiraResults` does) and parsing it back (as
`GenerateMarkdownFromJSON` does) yields a field-for-field identical
structure; an absent assignee (`none`) survives distinctly from an
empty string, as do nil versus empty slices. -/
theorem response_roundtrip (r : TransitionCheckResponse) :
    unmarshalResponse (marshalResponse r) = some r := by
  obtain ⟨tl⟩ := r
  cases tl with
  | none => rfl
  | some l =>
    simp [marshalResponse, unmarshalResponse, jMember, jLookup, decResultList,
      decodeArr_map decResult marshalResult decResult_marshal]

/-- C5: every error-status result built by `createErrorResult` has an
empty link, project, created and updated, an absent assignee, an empty
(non-nil) transitions slice, status `"Error"`, the requested identifier
as its (then non-empty) key, and a description starting with the
`"Error:"` marker. -/
theorem errorResult_invariants (jiraID : String) (err : Option String) (h : jiraID ≠ "") :
    (createErrorResult jiraID err).link = "" ∧
    (createErrorResult jiraID err).project = "" ∧
    (createErrorResult jiraID err).created = "" ∧
    (createErrorResult jiraID err).updated = "" ∧
    (createErrorResult jiraID err).assignee = none ∧
    (createErrorResult jiraID err).transitions = some [] ∧
    (createErrorResult jiraID err).status = ErrorStatus ∧
    (createErrorResult jiraID err).key = jiraID ∧
    (createErrorResult jiraID err).key ≠ "" ∧
    ∃ rest, (createErrorResult jiraID err).description = "Error:" ++ rest :=
  ⟨rfl, rfl, rfl, rfl, rfl, rfl, rfl, rfl, h, createErrorResult_desc jiraID err⟩

/-- Witness for C5 at identifier `"EV-9"` and error `"boom"`. -/
theorem errorResult_invariants_witness :
    (createErrorResult "EV-9" (some "boom")).link = "" ∧
    (createErrorResult "EV-9" (some "boom")).project = "" ∧
    (createErrorResult "EV-9" (some "boom")).created = "" ∧
    (createErrorResult "EV-9" (some "boom")).updated = "" ∧
    (createErrorResult "EV-9" (some "boom")).assignee = none ∧
    (createErrorResult "EV-9" (some "boom")).transitions = some [] ∧
    (createErrorResult "EV-9" (some "boom")).status = ErrorStatus ∧
    (createErrorResult "EV-9" (some "boom")).key = "EV-9" ∧
    (createErrorResult "EV-9" (some "boom")).key ≠ "" ∧
    ∃ rest, (createErrorResult "EV-9" (some "boom")).description = "Error:" ++ rest :=
  errorResult_invariants "EV-9" (some "boom") (by decide)

/-- C6: `formatDate` maps `""` to `"N/A"`, renders any input that
parses under the tracker layout as `YYYY-MM-DD HH:MM:SS` (in
particular the documented example), and passes unparsable non-empty
input through verbatim unchanged. -/
theorem formatDate_spec :
    formatDate "" = "N/A" ∧
    (∀ s t, s ≠ "" → parseJiraTime s = some t → formatDate s = renderDateTime t) ∧
    (∀ s, s ≠ "" → parseJiraTime s = none → formatDate s = s) ∧
    formatDate "2025-01-01T10:30:45.123+0300" = "2025-01-01 10:30:45" ∧
    formatDate "not-a-date" = "not-a-date" := by
  refine ⟨rfl, ?_, ?_, by decide, by decide⟩
  · intro s t hne hp
    unfold formatDate
    rw [if_neg hne, hp]
  · intro s hne hp
    unfold formatDate
    rw [if_neg hne, hp]

/-- Witness for C6: a leap-day timestamp renders, an invalid month
passes through. -/
theorem formatDate_spec_witness :
    formatDate "2024-02-29T08:05:00.000-0700" =
      renderDateTime { year := 2024, month := 2, day := 29, hour := 8, minute := 5, second := 0 } ∧
    formatDate "2025-13-01T00:00:00.000-0700" = "2025-13-01T00:00:00.000-0700" :=
  ⟨formatDate_spec.2.1 _ _ (by decide) (by decide),
   formatDate_spec.2.2.1 _ (by decide) (by decide)⟩

/-- C1: `FetchJiraDetails` yields exactly one task per identifier, in
input order (`tasks[i]` is the fetch of `ids[i]` and depends on nothing
else), and a failed fetch (error, nil issue or nil fields) becomes an
Error-status task at its own position without aborting or altering the
remaining identifiers. -/
theorem fetchJiraDetails_per_id_isolation (jc : JiraClient) (jiraIDs : List String) :
    (FetchJiraDetails jc jiraIDs).tasks = some (jiraIDs.map (fetchSingleJiraDetail jc)) ∧
    (tasksOf (FetchJiraDetails jc jiraIDs)).length = jiraIDs.length ∧
    (∀ i : Nat, (tasksOf (FetchJiraDetails jc jiraIDs))[i]? =
      (jiraIDs[i]?).map (fetchSingleJiraDetail jc)) ∧
    (∀ (i : Nat) (id : String), jiraIDs[i]? = some id → FetchFailed jc id →
      ∃ r, (tasksOf (FetchJiraDetails jc jiraIDs))[i]? = some r ∧
        r.status = ErrorStatus ∧ r.key = id ∧
        ∃ rest, r.description = "Error:" ++ rest) := by
  refine ⟨rfl, by simp [FetchJiraDetails, tasksOf], ?_, ?_⟩
  · intro i
    simp [FetchJiraDetails, tasksOf, List.getElem?_map]
  · intro i id hid hfail
    obtain ⟨e, he⟩ := fetchSingle_failed hfail
    refine ⟨createErrorResult id e, ?_, rfl, rfl, createErrorResult_desc id e⟩
    simp [FetchJiraDetails, tasksOf, List.getElem?_map, hid, he]

/-- Witness for C1, mirroring the spec's `["EV-123", "INVALID-99999"]`
example: task 1 is an Error result for the unknown identifier while
task 0 fetched normally. -/
theorem fetchJiraDetails_per_id_isolation_witness :
    (∃ r, (tasksOf (FetchJiraDetails demoClient ["EV-123", "INVALID-99999"]))[1]? = some r ∧
      r.status = ErrorStatus ∧ r.key = "INVALID-99999" ∧
      ∃ rest, r.description = "Error:" ++ rest) ∧
    (fetchSingleJiraDetail demoClient "EV-123").status = "Done" := by
  refine ⟨(fetchJiraDetails_per_id_isolation demoClient ["EV-123", "INVALID-99999"]).2.2.2
    1 "INVALID-99999" (by decide) (Or.inl (by decide)), by decide⟩

/-- C2 (amended): every output `extractUniqueJIRAIDs` can return is
duplicate-free, and its elements are exactly the non-empty identifiers
first seen in the scanned input (the matching seed and the per-line
matches) — but the ORDER is an arbitrary map-enumeration order, not
necessarily first-seen order (see the counterexample
about the first-seen ordering). -/
theorem extraction_nodup_and_membership (msgs cur : String) (p : Pattern)
    (out : List String) (h : IsExtractResult msgs cur p out) :
    out.Nodup ∧
    ∀ x, x ∈ out ↔
      (x ≠ "" ∧ (((cur ≠ "" ∧ p.matchStr cur = true) ∧ x = cur) ∨
        ∃ line ∈ splitLines msgs, x ∈ p.findAll line)) := by
  have hp : out.Perm (extractUniqueCanonical msgs cur p) := h
  refine ⟨(List.Perm.nodup_iff hp).mpr (extractUniqueCanonical_nodup msgs cur p), ?_⟩
  intro x
  rw [hp.mem_iff, mem_extractUniqueCanonical, mem_extractKeys]

/-- Witness for C2's amended theorem on the input `"EV-1 EV-2"` and the
admissible output `["EV-2", "EV-1"]`. -/
theorem extraction_nodup_and_membership_witness :
    (["EV-2", "EV-1"] : List String).Nodup ∧ "EV-1" ∈ (["EV-2", "EV-1"] : List String) := by
  have h : IsExtractResult "EV-1 EV-2" "" defaultJIRAPattern ["EV-2", "EV-1"] := by
    show List.Perm _ _
    have hc : extractUniqueCanonical "EV-1 EV-2" "" defaultJIRAPattern = ["EV-1", "EV-2"] := by
      decide
    rw [hc]
    exact List.Perm.swap "EV-1" "EV-2" []
  have hm := extraction_nodup_and_membership "EV-1 EV-2" "" defaultJIRAPattern ["EV-2", "EV-1"] h
  exact ⟨hm.1, (hm.2 "EV-1").mpr ⟨by decide, Or.inr ⟨"EV-1 EV-2", by decide, by decide⟩⟩⟩

/-- C2 counterexample: on input `"EV-1 EV-2"` the first-seen order is
`["EV-1", "EV-2"]`, yet `["EV-2", "EV-1"]` is also a possible return
of `extractUniqueJIRAIDs` (Go map enumeration order is unspecified and
randomized, and the function's own tests compare order-insensitively),
so the extraction does NOT always list identifiers in first-seen
insertion order. -/
theorem extraction_order_not_first_seen :
    IsExtractResult "EV-1 EV-2" "" defaultJIRAPattern ["EV-2", "EV-1"] ∧
    ["EV-2", "EV-1"] ≠ extractUniqueCanonical "EV-1 EV-2" "" defaultJIRAPattern := by
  constructor
  · show List.Perm _ _
    have hc : extractUniqueCanonical "EV-1 EV-2" "" defaultJIRAPattern = ["EV-1", "EV-2"] := by
      decide
    rw [hc]
    exact List.Perm.swap "EV-1" "EV-2" []
  · decide

/-- C10: the seed identifier is unioned into the extraction result only
when it matches the caller-supplied pattern: a seed failing the pattern
leaves the result exactly as if no seed had been supplied (silently
dropped), while a non-empty matching seed is always a member of the
result. -/
theorem seed_union_iff_pattern_match (msgs cur : String) (p : Pattern) (out : List String)
    (h : IsExtractResult msgs cur p out) :
    (p.matchStr cur = false → out.Perm (extractUniqueCanonical msgs "" p)) ∧
    (cur ≠ "" → p.matchStr cur = true → cur ∈ out) := by
  have hp : out.Perm (extractUniqueCanonical msgs cur p) := h
  constructor
  · intro hm
    have heq : extractUniqueCanonical msgs cur p = extractUniqueCanonical msgs "" p := by
      unfold extractUniqueCanonical
      rw [extractKeys_no_match msgs cur p hm]
    rwa [heq] at hp
  · intro hne hm
    apply hp.mem_iff.mpr
    rw [mem_extractUniqueCanonical, mem_extractKeys]
    exact ⟨hne, Or.inl ⟨⟨hne, hm⟩, rfl⟩⟩

/-- Witness for C10: the default-pattern seed `"EV-1"` is dropped under
the user pattern `"XY-[0-9]+"`; the matching seed `"EV-7"` is kept. -/
theorem seed_union_iff_pattern_match_witness :
    (extractUniqueCanonical "XY-2 fix" "EV-1" xyPattern).Perm
      (extractUniqueCanonical "XY-2 fix" "" xyPattern) ∧
    "EV-7" ∈ extractUniqueCanonical "no ids here" "EV-7" defaultJIRAPattern := by
  constructor
  · exact (seed_union_iff_pattern_match "XY-2 fix" "EV-1" xyPattern _
      (List.Perm.refl _)).1 (by decide)
  · exact (seed_union_iff_pattern_match "no ids here" "EV-7" defaultJIRAPattern _
      (List.Perm.refl _)).2 (by decide) (by decide)

/-- C3 (amended): the renderer is a pure function of the response, the
generation timestamp, and the status-map enumeration order: everything
before the status-distribution section is independent of that order,
and any two admissible orders produce the same status rows up to
permutation.  (It is NOT a pure function of the response alone — see
the counterexample.) -/
theorem generateMarkdown_determined_by_inputs (r : TransitionCheckResponse) (now : String)
    (e1 e2 : List String) (h1 : IsStatusEnum r e1) (h2 : IsStatusEnum r e2) :
    generateMarkdown r now e1 =
      mdBeforeStatus r now ++ "## Status Distribution\n\n" ++ "| Status | Count |\n" ++
        "|--------|-------|\n" ++ String.join (e1.map (statusRow (tasksOf r))) ∧
    (e1.map (statusRow (tasksOf r))).Perm (e2.map (statusRow (tasksOf r))) := by
  have hp1 : e1.Perm (statusKeys (tasksOf r)) := h1
  have hp2 : e2.Perm (statusKeys (tasksOf r)) := h2
  exact ⟨rfl, (hp1.trans hp2.symm).map _⟩

/-- Witness for C3's amended theorem on a two-status response. -/
theorem generateMarkdown_determined_by_inputs_witness :
    (["Done", "Open"].map (statusRow (tasksOf respAB))).Perm
      (["Open", "Done"].map (statusRow (tasksOf respAB))) := by
  refine (generateMarkdown_determined_by_inputs respAB "2025-01-01 00:00:00"
    ["Done", "Open"] ["Open", "Done"] ?_ ?_).2
  · show List.Perm _ _
    decide
  · show List.Perm _ _
    decide

set_option maxRecDepth 8192 in
/-- C3 counterexample: `generateMarkdown` renders the closing
status-distribution table in Go map-iteration order, which is
unspecified; on a response with statuses `"Done"` and `"Open"` both row
orders are admissible and produce different bytes even at the same
generation timestamp (the embedded `time.Now()` timestamp breaks
byte-stability between runs as well), so two renderings of the same
response need not be byte-identical. -/
theorem generateMarkdown_not_deterministic :
    IsStatusEnum respAB ["Done", "Open"] ∧ IsStatusEnum respAB ["Open", "Done"] ∧
    generateMarkdown respAB "2025-01-01 00:00:00" ["Done", "Open"] ≠
      generateMarkdown respAB "2025-01-01 00:00:00" ["Open", "Done"] := by
  refine ⟨?_, ?_, by decide⟩
  · show List.Perm _ _
    decide
  · show List.Perm _ _
    decide

/-- C9: the direct-identifier mode test is unanchored substring
matching: `MatchString` accepts any argument in which some substring
matches the default pattern, so a non-empty argument list whose members
merely CONTAIN identifiers (e.g. `"xxEV-123yy"`) selects
direct-identifier mode rather than version-control mode. -/
theorem direct_mode_unanchored_matching (flags : FlagConfig) (args : List String)
    (config : AppConfig) (compile : String → Option Pattern)
    (hmd : flags.generateMarkdown = false) (hlg : flags.extractFromGit = false)
    (hxo : flags.extractOnly = false) (hne : args ≠ [])
    (hc : compile config.jiraIDRegex = some defaultJIRAPattern)
    (hall : ∀ a ∈ args, ∃ pre mid suf, a = pre ++ mid ++ suf ∧ matchStringJira mid = true) :
    selectedMode flags args config compile = .direct args := by
  have hemp : args.isEmpty = false := by
    cases args
    · exact absurd rfl hne
    · rfl
  have hmatch : allArgsMatchPattern args defaultJIRAPattern = true := by
    unfold allArgsMatchPattern
    rw [List.all_eq_true]
    intro a ha
    obtain ⟨pre, mid, suf, rfl, hm⟩ := hall a ha
    exact matchStringJira_substring pre mid suf hm
  unfold selectedMode
  rw [hmd, hlg, hxo, hemp, hc]
  simp [hmatch]

/-- Witness for C9 at the argument `"xxEV-123yy"`. -/
theorem direct_mode_unanchored_matching_witness :
    selectedMode noFlags ["xxEV-123yy"] demoConfig stdCompile = .direct ["xxEV-123yy"] := by
  refine direct_mode_unanchored_matching noFlags ["xxEV-123yy"] demoConfig stdCompile
    rfl rfl rfl (by decide) rfl ?_
  intro a ha
  rw [List.mem_singleton] at ha
  subst ha
  exact ⟨"xx", "EV-123", "yy", by decide, by decide⟩

/-- C4 (amended): when the git-based branch is selected and the
repository check fails, `determineExecutionMode` returns the
`GitError` rather than swallowing it, and `main` exits with code 1 —
the failure is fatal, not a graceful exit-0 soft fail. -/
theorem repo_check_failure_fatal (w : World) (flags : FlagConfig) (args : List String)
    (config : AppConfig)
    (hhelp : flags.help = false) (hhelp2 : flags.helpLong = false)
    (hload : LoadConfig w.env flags args = .ok config)
    (hsel : selectedMode flags args config w.compile = .gitBased)
    (hgit : ∃ e, w.gitExec ["rev-parse", "--git-dir"] = .error e) :
    determineExecutionMode w flags args config =
      .error (.git "rev-parse --git-dir" "not in a git repository") ∧
    mainExitCode w flags args = 1 := by
  obtain ⟨e, he⟩ := hgit
  have hdet : determineExecutionMode w flags args config =
      .error (.git "rev-parse --git-dir" "not in a git repository") := by
    unfold determineExecutionMode
    rw [hsel]
    unfold CheckRepository gitCmd
    rw [he]
  refine ⟨hdet, ?_⟩
  unfold mainExitCode
  rw [hhelp, hhelp2, hload]
  simp [hdet]

/-- C4 counterexample: with no flags, argument `"abc123"` and a working
directory that is not a git repository (every git call fails), the
process exits with code 1, not 0. -/
theorem repo_check_failure_exit_code :
    mainExitCode worldNoRepo noFlags ["abc123"] ≠ 0 ∧
    mainExitCode worldNoRepo noFlags ["abc123"] = 1 := ⟨by decide, by decide⟩

/-- Witness for C4's amended theorem in the no-repository world. -/
theorem repo_check_failure_fatal_witness :
    determineExecutionMode worldNoRepo noFlags ["abc123"] demoConfig =
      .error (.git "rev-parse --git-dir" "not in a git repository") ∧
    mainExitCode worldNoRepo noFlags ["abc123"] = 1 :=
  repo_check_failure_fatal worldNoRepo noFlags ["abc123"] demoConfig
    rfl rfl rfl (by decide) ⟨"exit status 128", rfl⟩

/-- C7 (amended): in single-commit mode the seed identifier is never
unioned in — it appears in the output only when the compiled pattern
finds it inside the starting commit's own message; in range mode a
non-empty seed that matches the supplied pattern is unioned in (an
unmatching seed is dropped — see the counterexample). -/
theorem extractJiraIDs_seed_handling (g : GitExec) (compile : String → Option Pattern)
    (startCommit rx cur : String) :
    (∀ out, IsExtractJiraIDsOutput g compile startCommit rx cur true out → cur ∈ out →
      ∃ p msg, compile rx = some p ∧
        gitCmd g ["log", "-1", "--pretty=format:%s", startCommit] = .ok msg ∧
        ∃ line ∈ splitLines msg, cur ∈ p.findAll line) ∧
    (∀ out, IsExtractJiraIDsOutput g compile startCommit rx cur false out →
      cur ≠ "" → (∀ p, compile rx = some p → p.matchStr cur = true) → cur ∈ out) := by
  constructor
  · rintro out ⟨canon, hcanon, hperm⟩ hmem
    rw [ExtractJiraIDsCanon_ok_iff] at hcanon
    obtain ⟨-, msg, p, hlog, hcp, hcanon2⟩ := hcanon
    simp at hlog hcanon2
    refine ⟨p, msg, hcp, hlog, ?_⟩
    have hx : cur ∈ extractUniqueCanonical msg "" p := by
      rw [← hcanon2]
      exact hperm.mem_iff.mp hmem
    rw [mem_extractUniqueCanonical, mem_extractKeys] at hx
    rcases hx.2 with ⟨⟨habs, -⟩, -⟩ | hline
    · exact absurd rfl habs
    · exact hline
  · rintro out ⟨canon, hcanon, hperm⟩ hne hmatch
    rw [ExtractJiraIDsCanon_ok_iff] at hcanon
    obtain ⟨-, msg, p, hlog, hcp, hcanon2⟩ := hcanon
    simp at hlog hcanon2
    apply hperm.mem_iff.mpr
    rw [hcanon2, mem_extractUniqueCanonical, mem_extractKeys]
    exact ⟨hne, Or.inl ⟨⟨hne, hmatch p hcp⟩, rfl⟩⟩

/-- Witness for C7: in single-commit mode the output `["EV-5"]` forces
`"EV-5"` to occur as a match in the commit's own message; in range mode
the matching seed `"EV-7"` is a member of the output. -/
theorem extractJiraIDs_seed_handling_witness :
    (∃ p msg, stdCompile DefaultJIRAIDRegex = some p ∧
      gitCmd gitOracleXY ["log", "-1", "--pretty=format:%s", "abc123"] = .ok msg ∧
      ∃ line ∈ splitLines msg, "EV-5" ∈ p.findAll line) ∧
    "EV-7" ∈ extractUniqueCanonical "XY-2 some fix" "EV-7" defaultJIRAPattern := by
  constructor
  · refine (extractJiraIDs_seed_handling gitOracleXY stdCompile "abc123"
      DefaultJIRAIDRegex "EV-5").1 ["EV-5"] ⟨["EV-5"], ?_, List.Perm.refl _⟩ (by decide)
    rw [ExtractJiraIDsCanon_ok_iff]
    exact ⟨rfl, "EV-5 fix typo", defaultJIRAPattern, rfl, rfl, by decide⟩
  · refine (extractJiraIDs_seed_handling gitOracleXY stdCompile "abc123"
      DefaultJIRAIDRegex "EV-7").2 ["EV-7", "XY-2"] ⟨["EV-7", "XY-2"], ?_, List.Perm.refl _⟩
      (by decide) ?_
    · rw [ExtractJiraIDsCanon_ok_iff]
      exact ⟨rfl, "XY-2 some fix", defaultJIRAPattern, rfl, rfl, by decide⟩
    · intro p hp
      injection hp with hp2
      rw [← hp2]
      decide

/-- C7 counterexample: in range mode with the user pattern
`"XY-[0-9]+"`, the branch-derived seed `"EV-1"` (a genuine
default-pattern identifier, so non-empty) is NOT unioned into the
result: the run returns exactly `["XY-2"]`, and since every admissible
output is a permutation of it, no output contains the seed. -/
theorem range_seed_not_always_unioned :
    ExtractJiraIDsCanon gitOracleXY stdCompile "abc123" "XY-[0-9]+" "EV-1" false =
      .ok ["XY-2"] ∧
    "EV-1" ∉ (["XY-2"] : List String) ∧
    "EV-1" ≠ "" ∧ matchStringJira "EV-1" = true := by
  refine ⟨?_, by decide, by decide, by decide⟩
  rw [ExtractJiraIDsCanon_ok_iff]
  exact ⟨rfl, "XY-2 some fix", xyPattern, rfl, rfl, by decide⟩

end JiraHelper
